import Mathlib

/-!
# SIP test server (headless and audio-device variants)

A shallow embedding of `src/headless/sip_server_headless.go` (namespace `Headless`)
and `src/sip_server.go` (namespace `Main`).

The SIP library (`sipgo`), the Go runtime (`os`, `net`, `time`, `log`) and the audio
library (`portaudio`) are external collaborators.  Their results are inputs of the
model (environment values, transmission outcomes, clock checks, sink outcomes), and
every call a handler makes on them is recorded, in program order, in a trace of
`Event`s.
-/

set_option autoImplicit false

namespace Sip

/-- The parts of a `*sip.Request` the handlers read: the method and the rendered
`From`, `To` and `Call-ID` headers. -/
structure Request where
  method : String
  sipFrom : String
  sipTo : String
  callID : String
  deriving DecidableEq, Repr

/-- The headers the handlers append to a response. -/
inductive Header where
  /-- `&sip.ContactHeader{Address: sip.Uri{Scheme, Host, Port}}` -/
  | contact (scheme host : String) (port : Nat)
  /-- `sip.ContentTypeHeader(value)` -/
  | contentType (value : String)
  /-- `&sip.NewHeader{HeaderName, Contents}` -/
  | newHeader (headerName contents : String)
  deriving DecidableEq, Repr

/-- A `*sip.Response` as the handlers build it: the request it was made from
(the source of its Via, From, To, Call-ID and CSeq), status line, the headers
appended by the handler and the body set by the handler (`none` is Go's `nil`). -/
structure Response where
  request : Request
  statusCode : Nat
  reason : String
  headers : List Header
  body : Option String
  deriving DecidableEq, Repr

/-- `sip.NewResponseFromRequest(req, statusCode, reason, body)`. -/
def NewResponseFromRequest (req : Request) (statusCode : Nat) (reason : String)
    (body : Option String) : Response :=
  { request := req, statusCode := statusCode, reason := reason, headers := [], body := body }

/-- `res.AppendHeader(h)`. -/
def Response.AppendHeader (res : Response) (h : Header) : Response :=
  { res with headers := res.headers ++ [h] }

/-- `res.SetBody(b)`. -/
def Response.SetBody (res : Response) (b : String) : Response :=
  { res with body := some b }

/-- A `sip.ServerTransaction`: its identity, and the outcome of `tx.Respond(res)`:
`Respond k res` is the error (`none` is Go's `nil`) returned by the call that
follows `k` earlier `Respond` calls of the handler on this transaction. -/
structure ServerTransaction where
  key : String
  Respond : Nat → Response → Option String

/-- What a handler does to the outside world, in program order. -/
inductive Event where
  /-- `log.Printf` / `log.Println` with the formatted message -/
  | log (line : String)
  /-- `tx.Respond(res)` on the transaction `txKey`, with the error it returned -/
  | respond (txKey : String) (res : Response) (err : Option String)
  /-- `time.Sleep(seconds * time.Second)` -/
  | sleep (seconds : Nat)
  /-- `go func() { time.Sleep(10 * time.Second); log.Println(...) }()` -/
  | goCallDuration
  /-- `go playAudio()` -/
  | goPlayAudio
  deriving DecidableEq, Repr

/-- The responses whose transmission a trace attempts, in order. -/
def responses : List Event → List Response
  | [] => []
  | .respond _ res _ :: es => res :: responses es
  | _ :: es => responses es

/-- The transmission attempts of a trace: transaction, response and outcome. -/
def attempts : List Event → List (String × Response × Option String)
  | [] => []
  | .respond k res err :: es => (k, res, err) :: attempts es
  | _ :: es => attempts es

/-- Whether an event transmits a response. -/
def Event.isRespond : Event → Bool
  | .respond _ _ _ => true
  | _ => false

/-- Whether an event starts a concurrent task (audio playback or call duration). -/
def Event.isTask : Event → Bool
  | .goCallDuration => true
  | .goPlayAudio => true
  | _ => false

/-- Observations of a Go `net.IP` value made by `getLocalIP`. -/
structure IP where
  /-- `ip.IsLoopback()` -/
  IsLoopback : Bool
  /-- `ip.To4() != nil` -/
  To4NonNil : Bool
  /-- `ip.String()` -/
  text : String
  deriving DecidableEq, Repr

/-- An element of the slice `net.InterfaceAddrs()` returns, a `net.Addr`. -/
inductive Addr where
  /-- the dynamic type is `*net.IPNet`, with its field `IP` -/
  | ipNet (ip : IP)
  /-- any other dynamic type; the assertion `addr.(*net.IPNet)` fails -/
  | other (text : String)
  deriving DecidableEq, Repr

/-- The result of `net.InterfaceAddrs()`: an error or the address list. -/
abbrev InterfaceAddrs := Except String (List Addr)

/-- The body of `getLocalIP`'s `for _, addr := range addrs` loop (the same text in
both source files). -/
def getLocalIPLoop : List Addr → String
  | [] => "127.0.0.1"
  | .ipNet ip :: rest =>
    if !ip.IsLoopback then
      if ip.To4NonNil then ip.text else getLocalIPLoop rest
    else getLocalIPLoop rest
  | .other _ :: rest => getLocalIPLoop rest

/-- `getLocalIP()` (the same text in both source files), with the result of
`net.InterfaceAddrs()` as input. -/
def getLocalIP (addrs : InterfaceAddrs) : String :=
  match addrs with
  | .error _ => "127.0.0.1"
  | .ok as => getLocalIPLoop as

end Sip

namespace Headless
open Sip

/-- `sipPort` -/
def sipPort : Nat := 5060

/-- What the headless process reads from its surroundings. -/
structure Env where
  /-- `os.Getenv("PUBLIC_IP")`, the empty string when unset -/
  PUBLIC_IP : String
  /-- `net.InterfaceAddrs()` -/
  interfaceAddrs : InterfaceAddrs

/-- `getPublicIP()` -/
def getPublicIP (env : Env) : String :=
  if env.PUBLIC_IP ≠ "" then env.PUBLIC_IP else getLocalIP env.interfaceAddrs

/-- `generateSDP(publicIP)`: the raw string literal with both `%s` replaced. -/
def generateSDP (publicIP : String) : String :=
  "v=0\no=- 0 0 IN IP4 " ++ publicIP ++ "\ns=SIP Call\nc=IN IP4 " ++ publicIP ++
  "\nt=0 0\nm=audio 20000 RTP/AVP 0 8 101\na=rtpmap:0 PCMU/8000\na=rtpmap:8 PCMA/8000\na=rtpmap:101 telephone-event/8000\na=fmtp:101 0-16\na=ptime:20\na=sendrecv\n"

/-- The 200 OK that `handleInvite` builds: Contact header, SDP body, Content-Type. -/
def inviteOK (env : Env) (req : Request) : Response :=
  let res := NewResponseFromRequest req 200 "OK" none
  let publicIP := getPublicIP env
  let res := res.AppendHeader (.contact "sip" publicIP sipPort)
  let sdp := generateSDP publicIP
  let res := res.SetBody sdp
  res.AppendHeader (.contentType "application/sdp")

/-- `(*SIPServer).handleInvite(req, tx)` -/
def handleInvite (env : Env) (req : Request) (tx : ServerTransaction) : List Event :=
  let t := [Event.log ("Received INVITE from " ++ req.sipFrom),
            Event.log ("To: " ++ req.sipTo),
            Event.log ("Call-ID: " ++ req.callID)]
  let res := NewResponseFromRequest req 100 "Trying" none
  match tx.Respond 0 res with
  | some err => t ++ [.respond tx.key res (some err), .log ("Failed to send 100 Trying: " ++ err)]
  | none =>
    let t := t ++ [.respond tx.key res none]
    let res := NewResponseFromRequest req 180 "Ringing" none
    match tx.Respond 1 res with
    | some err =>
      t ++ [.respond tx.key res (some err), .log ("Failed to send 180 Ringing: " ++ err)]
    | none =>
      let t := t ++ [.respond tx.key res none, .sleep 2]
      let res := inviteOK env req
      match tx.Respond 2 res with
      | some err =>
        t ++ [.respond tx.key res (some err), .log ("Failed to send 200 OK: " ++ err)]
      | none =>
        t ++ [.respond tx.key res none,
              .log "Call accepted successfully",
              .log "In a real scenario, audio would be played here",
              .log "Simulating call duration of 10 seconds...",
              .goCallDuration]

/-- `(*SIPServer).handleBye(req, tx)` -/
def handleBye (req : Request) (tx : ServerTransaction) : List Event :=
  let t := [Event.log ("Received BYE from " ++ req.sipFrom),
            Event.log ("Call-ID: " ++ req.callID)]
  let res := NewResponseFromRequest req 200 "OK" none
  let t := match tx.Respond 0 res with
    | some err =>
      t ++ [.respond tx.key res (some err), .log ("Failed to send 200 OK for BYE: " ++ err)]
    | none => t ++ [.respond tx.key res none]
  t ++ [.log "Call ended"]

/-- `(*SIPServer).handleRegister(req, tx)` -/
def handleRegister (req : Request) (tx : ServerTransaction) : List Event :=
  let t := [Event.log ("Received REGISTER from " ++ req.sipFrom)]
  let res := NewResponseFromRequest req 200 "OK" none
  match tx.Respond 0 res with
  | some err =>
    t ++ [.respond tx.key res (some err), .log ("Failed to send 200 OK for REGISTER: " ++ err)]
  | none => t ++ [.respond tx.key res none]

/-- `(*SIPServer).handleAck(req, tx)` -/
def handleAck (req : Request) (_tx : ServerTransaction) : List Event :=
  [.log ("Received ACK from " ++ req.sipFrom),
   .log ("Call-ID: " ++ req.callID),
   .log "Call is now established"]

/-- `(*SIPServer).handleCancel(req, tx)` -/
def handleCancel (req : Request) (tx : ServerTransaction) : List Event :=
  let t := [Event.log ("Received CANCEL from " ++ req.sipFrom),
            Event.log ("Call-ID: " ++ req.callID)]
  let res := NewResponseFromRequest req 200 "OK" none
  let t := match tx.Respond 0 res with
    | some err =>
      t ++ [.respond tx.key res (some err), .log ("Failed to send 200 OK for CANCEL: " ++ err)]
    | none => t ++ [.respond tx.key res none]
  let res := NewResponseFromRequest req 487 "Request Terminated" none
  let t := match tx.Respond 1 res with
    | some err =>
      t ++ [.respond tx.key res (some err),
            .log ("Failed to send 487 Request Terminated: " ++ err)]
    | none => t ++ [.respond tx.key res none]
  t ++ [.log "Call cancelled"]

end Headless

namespace Main
open Sip

/-- `sampleRate` -/
def sampleRate : Nat := 44100

/-- `channels` -/
def channels : Nat := 2

/-- `sipPort` -/
def sipPort : Nat := 5060

/-- `generateSDP(localIP)`: the raw string literal with both `%s` replaced. -/
def generateSDP (localIP : String) : String :=
  "v=0\no=- 0 0 IN IP4 " ++ localIP ++ "\ns=SIP Call\nc=IN IP4 " ++ localIP ++
  "\nt=0 0\nm=audio 20000 RTP/AVP 0 8 101\na=rtpmap:0 PCMU/8000\na=rtpmap:8 PCMA/8000\na=rtpmap:101 telephone-event/8000\na=fmtp:101 0-16\na=sendrecv\n"

/-- The 200 OK that `handleInvite` builds.  `getLocalIP()` is called twice, so the
two results of `net.InterfaceAddrs()` are separate inputs. -/
def inviteOK (addrs1 addrs2 : InterfaceAddrs) (req : Request) : Response :=
  let res := NewResponseFromRequest req 200 "OK" none
  let res := res.AppendHeader (.contact "sip" (getLocalIP addrs1) sipPort)
  let sdp := generateSDP (getLocalIP addrs2)
  let res := res.SetBody sdp
  res.AppendHeader (.newHeader "Content-Type" "application/sdp")

/-- `(*SIPServer).handleInvite(req, tx)` -/
def handleInvite (addrs1 addrs2 : InterfaceAddrs) (req : Request) (tx : ServerTransaction) :
    List Event :=
  let t := [Event.log ("Received INVITE from " ++ req.sipFrom)]
  let res := NewResponseFromRequest req 180 "Ringing" none
  match tx.Respond 0 res with
  | some err =>
    t ++ [.respond tx.key res (some err), .log ("Failed to send 180 Ringing: " ++ err)]
  | none =>
    let t := t ++ [.respond tx.key res none]
    let res := inviteOK addrs1 addrs2 req
    match tx.Respond 1 res with
    | some err =>
      t ++ [.respond tx.key res (some err), .log ("Failed to send 200 OK: " ++ err)]
    | none =>
      t ++ [.respond tx.key res none, .log "Call accepted, playing audio...", .goPlayAudio]

/-- `(*SIPServer).handleBye(req, tx)` -/
def handleBye (req : Request) (tx : ServerTransaction) : List Event :=
  let t := [Event.log ("Received BYE from " ++ req.sipFrom)]
  let res := NewResponseFromRequest req 200 "OK" none
  let t := match tx.Respond 0 res with
    | some err =>
      t ++ [.respond tx.key res (some err), .log ("Failed to send 200 OK for BYE: " ++ err)]
    | none => t ++ [.respond tx.key res none]
  t ++ [.log "Call ended"]

/-- `(*SIPServer).handleRegister(req, tx)` -/
def handleRegister (req : Request) (tx : ServerTransaction) : List Event :=
  let t := [Event.log ("Received REGISTER from " ++ req.sipFrom)]
  let res := NewResponseFromRequest req 200 "OK" none
  match tx.Respond 0 res with
  | some err =>
    t ++ [.respond tx.key res (some err), .log ("Failed to send 200 OK for REGISTER: " ++ err)]
  | none => t ++ [.respond tx.key res none]

/-- The floating-point part of the tone generator, over a phase type `φ` (Go's
`float64`) and a sample type `α` (Go's `float32`). -/
structure Tone (φ α : Type) where
  /-- the zero value `make([]float32, n)` fills the buffer with -/
  zero : α
  /-- `phase := 0.0` -/
  phase0 : φ
  /-- `float32(math.Sin(phase) * 0.3)` -/
  sample : φ → α
  /-- `phase += phaseIncrement; if phase >= 2.0*math.Pi { phase -= 2.0 * math.Pi }` -/
  advance : φ → φ

/-- The inner loop `for c := 0; c < channels; c++ { out[i+c] = sample }`, from the
given `c`.  `none` is Go's index-out-of-range panic.  `written` records the indices
assigned so far, in order. -/
def fillChannels {α : Type} (sample : α) (i c : Nat) (out : List α) (written : List Nat) :
    Option (List α × List Nat) :=
  if c < channels then
    if i + c < out.length then
      fillChannels sample i (c + 1) (out.set (i + c) sample) (written ++ [i + c])
    else none
  else some (out, written)
termination_by channels - c

/-- The frame loop `for i := 0; i < len(out); i += channels { ... }`, from the given
`i`.  `n` is `len(out)`, which element assignment leaves unchanged. -/
def fillFrames {φ α : Type} (tone : Tone φ α) (n i : Nat) (phase : φ) (out : List α)
    (written : List Nat) : Option (List α × φ × List Nat) :=
  if i < n then
    let sample := tone.sample phase
    match fillChannels sample i 0 out written with
    | none => none
    | some (out1, written1) =>
      fillFrames tone n (i + channels) (tone.advance phase) out1 written1
  else some (out, phase, written)
termination_by n - i
decreasing_by
  simp only [channels]
  omega

/-- One pass of the frame-filling loop over the buffer `out`, starting at `phase`:
the new buffer, the new phase and the indices assigned, in order. -/
def fillBuffer {φ α : Type} (tone : Tone φ α) (phase : φ) (out : List α) :
    Option (List α × φ × List Nat) :=
  fillFrames tone out.length 0 phase out []

/-- What `playAudio` receives from the audio library and the clock. -/
structure AudioEnv (α : Type) where
  /-- `portaudio.Initialize()` -/
  initErr : Option String
  /-- the error of `portaudio.OpenDefaultStream(...)` -/
  openErr : Option String
  /-- `stream.Start()` -/
  startErr : Option String
  /-- the `k`-th evaluation (from 0) of `time.Since(startTime) < duration` -/
  running : Nat → Bool
  /-- the `k`-th call (from 0) of `stream.Write()`, on the buffer it is given -/
  writeErr : Nat → List α → Option String

/-- What `playAudio` does to the outside world, in program order. -/
inductive AudioEvent (α : Type) where
  | log (line : String)
  /-- `portaudio.Initialize()` -/
  | paInit (err : Option String)
  /-- `portaudio.OpenDefaultStream(numIn, numOut, sampleRate, framesPerBuffer, &out)` -/
  | openDefaultStream (numIn numOut : Nat) (rate framesPerBuffer : Nat) (err : Option String)
  /-- `stream.Start()` -/
  | start (err : Option String)
  /-- `stream.Write()` of the buffer `out` -/
  | write (out : List α) (err : Option String)
  /-- deferred `stream.Stop()` -/
  | stop
  /-- deferred `stream.Close()` -/
  | close
  /-- deferred `portaudio.Terminate()` -/
  | terminate
  /-- index-out-of-range panic in the frame loop -/
  | outOfRange

/-- How a run of the playback loop ends: it returned, it panicked, or it was cut
after the given number of iterations (`unfinished`). -/
inductive Exit where
  | returned
  | panicked
  | unfinished
  deriving DecidableEq, Repr

/-- The loop `for time.Since(startTime) < duration { fill; write }` from iteration
`k`, run for at most `fuel` iterations. -/
def playLoop {φ α : Type} (tone : Tone φ α) (env : AudioEnv α) :
    Nat → Nat → φ → List α → List (AudioEvent α) × Exit
  | 0, _, _, _ => ([], .unfinished)
  | fuel + 1, k, phase, out =>
    if env.running k then
      match fillBuffer tone phase out with
      | none => ([.outOfRange], .panicked)
      | some (out1, phase1, _) =>
        match env.writeErr k out1 with
        | some err => ([.write out1 (some err), .log ("Failed to write audio: " ++ err)], .returned)
        | none =>
          let r := playLoop tone env fuel (k + 1) phase1 out1
          (.write out1 none :: r.1, r.2)
    else ([.log "Audio playback completed"], .returned)

/-- `playAudio()`, its loop run for at most `fuel` iterations.  The deferred calls
run, last first, when the function returns or panics. -/
def playAudio {φ α : Type} (tone : Tone φ α) (env : AudioEnv α) (fuel : Nat) :
    List (AudioEvent α) × Exit :=
  match env.initErr with
  | some err => ([.paInit (some err), .log ("Failed to initialize PortAudio: " ++ err)], .returned)
  | none =>
    let out := List.replicate (512 * channels) tone.zero
    match env.openErr with
    | some err =>
      ([.paInit none, .openDefaultStream 0 channels sampleRate (out.length / channels) (some err),
        .log ("Failed to open audio stream: " ++ err), .terminate], .returned)
    | none =>
      let t := [AudioEvent.paInit none,
                .openDefaultStream 0 channels sampleRate (out.length / channels) none]
      match env.startErr with
      | some err =>
        (t ++ [.start (some err), .log ("Failed to start audio stream: " ++ err),
               .close, .terminate], .returned)
      | none =>
        let t := t ++ [.start none, .log "Playing test tone (440Hz)..."]
        let r := playLoop tone env fuel 0 tone.phase0 out
        match r.2 with
        | .returned => (t ++ r.1 ++ [.stop, .close, .terminate], .returned)
        | .panicked => (t ++ r.1 ++ [.stop, .close, .terminate], .panicked)
        | .unfinished => (t ++ r.1, .unfinished)

/-- The buffers `playAudio` hands to the sink, with the outcome of each write. -/
def writes {α : Type} : List (AudioEvent α) → List (List α × Option String)
  | [] => []
  | .write out err :: es => (out, err) :: writes es
  | _ :: es => writes es

/-- Whether an event is a write that the sink rejected. -/
def AudioEvent.isRejectedWrite {α : Type} : AudioEvent α → Bool
  | .write _ (some _) => true
  | _ => false

end Main

namespace Sdp

/-- The lines of a text: the maximal runs without a newline, each ended by a newline
(a last run without its newline counts when it is non-empty). -/
def textLines : List Char → List (List Char)
  | [] => []
  | c :: cs =>
    if c = '\n' then [] :: textLines cs
    else
      match textLines cs with
      | [] => [[c]]
      | l :: ls => (c :: l) :: ls

/-- The lines of a string. -/
def lines (s : String) : List String :=
  (textLines s.data).map String.mk

/-- Whether the string `s` starts with `p`. -/
def startsWith (p s : String) : Bool :=
  p.data.isPrefixOf s.data

/-- Whether a string has no line break in it. -/
def noLineBreak (s : String) : Prop :=
  '\n' ∉ s.data

end Sdp

namespace Spec
open Sip

/-- Whether, after the first failed transmission of a trace, no event transmits a
response or starts a task. -/
def quietAfterFailure : List Event → Bool
  | [] => true
  | .respond _ _ (some _) :: es => es.all (fun e => !e.isRespond && !e.isTask)
  | _ :: es => quietAfterFailure es

/-- The IP of an interface address that is an IP network address. -/
def ipNet? : Addr → Option IP
  | .ipNet ip => some ip
  | .other _ => none

/-- Media IP auto-detection as the specification words it: the textual form of the
first interface address that is an IP network address, is not loopback and is IPv4,
and `127.0.0.1` when there is none or when listing the interfaces fails. -/
def localIP (addrs : InterfaceAddrs) : String :=
  match addrs with
  | .error _ => "127.0.0.1"
  | .ok as =>
    match (as.filterMap ipNet?).find? (fun ip => !ip.IsLoopback && ip.To4NonNil) with
    | some ip => ip.text
    | none => "127.0.0.1"

/-- Media IP resolution as the specification words it: the explicit override when it
is a non-empty string, the auto-detected address otherwise. -/
def publicIP (override : String) (addrs : InterfaceAddrs) : String :=
  if override = "" then localIP addrs else override

end Spec

/-! ## Theorems -/

namespace Sip

theorem getLocalIPLoop_eq_find (as : List Addr) :
    getLocalIPLoop as =
      match (as.filterMap Spec.ipNet?).find? (fun ip => !ip.IsLoopback && ip.To4NonNil) with
      | some ip => ip.text
      | none => "127.0.0.1" := by
  induction as with
  | nil => rfl
  | cons a rest ih =>
    cases a with
    | ipNet ip =>
      cases hl : ip.IsLoopback <;> cases h4 : ip.To4NonNil <;>
        simp [getLocalIPLoop, Spec.ipNet?, List.find?, hl, h4, ih]
    | other t => simp [getLocalIPLoop, Spec.ipNet?, ih]

theorem getLocalIP_eq_spec (addrs : InterfaceAddrs) : getLocalIP addrs = Spec.localIP addrs := by
  cases addrs with
  | error e => rfl
  | ok as => simp only [getLocalIP, Spec.localIP, getLocalIPLoop_eq_find]

end Sip

namespace Headless
open Sip

/-- C1: in the headless variant, when every response transmission succeeds,
`handleInvite` attempts exactly three transmissions, all on the request's
transaction and in this order: 100 Trying, 180 Ringing, 200 OK; the 200 OK carries
the body `generateSDP(publicIP)`, a Contact header `sip:publicIP:5060` and the
Content-Type `application/sdp`, with `publicIP = getPublicIP()`. -/
theorem handleInvite_three_responses (env : Env) (req : Request) (tx : ServerTransaction)
    (hok : ∀ k res, tx.Respond k res = none) :
    attempts (handleInvite env req tx) =
      [(tx.key, { request := req, statusCode := 100, reason := "Trying",
                  headers := [], body := none }, none),
       (tx.key, { request := req, statusCode := 180, reason := "Ringing",
                  headers := [], body := none }, none),
       (tx.key, { request := req, statusCode := 200, reason := "OK",
                  headers := [.contact "sip" (getPublicIP env) 5060,
                              .contentType "application/sdp"],
                  body := some (generateSDP (getPublicIP env)) }, none)] := by
  simp [handleInvite, hok, attempts, inviteOK, NewResponseFromRequest, Response.AppendHeader,
    Response.SetBody, sipPort]

/-- C2: in the headless variant, when both response transmissions succeed,
`handleCancel` attempts exactly two transmissions, in this order: status 200 (OK),
then status 487 (Request Terminated); no response it issues carries a body. -/
theorem handleCancel_two_responses (req : Request) (tx : ServerTransaction)
    (hok : ∀ k res, tx.Respond k res = none) :
    attempts (handleCancel req tx) =
      [(tx.key, { request := req, statusCode := 200, reason := "OK",
                  headers := [], body := none }, none),
       (tx.key, { request := req, statusCode := 487, reason := "Request Terminated",
                  headers := [], body := none }, none)] ∧
    ∀ r ∈ responses (handleCancel req tx), r.body = none := by
  simp [handleCancel, hok, attempts, responses, NewResponseFromRequest]

/-- Witness: C1 applied to an INVITE whose three transmissions succeed. -/
theorem handleInvite_three_responses_witness :
    attempts (handleInvite ⟨"203.0.113.5", .ok []⟩
        ⟨"INVITE", "sip:alice@example.com", "sip:bob@example.com", "call-1"⟩
        ⟨"z9hG4bK-invite", fun _ _ => none⟩) =
      [("z9hG4bK-invite",
        { request := ⟨"INVITE", "sip:alice@example.com", "sip:bob@example.com", "call-1"⟩,
          statusCode := 100, reason := "Trying", headers := [], body := none }, none),
       ("z9hG4bK-invite",
        { request := ⟨"INVITE", "sip:alice@example.com", "sip:bob@example.com", "call-1"⟩,
          statusCode := 180, reason := "Ringing", headers := [], body := none }, none),
       ("z9hG4bK-invite",
        { request := ⟨"INVITE", "sip:alice@example.com", "sip:bob@example.com", "call-1"⟩,
          statusCode := 200, reason := "OK",
          headers := [.contact "sip" (getPublicIP ⟨"203.0.113.5", .ok []⟩) 5060,
                      .contentType "application/sdp"],
          body := some (generateSDP (getPublicIP ⟨"203.0.113.5", .ok []⟩)) }, none)] :=
  handleInvite_three_responses ⟨"203.0.113.5", .ok []⟩
    ⟨"INVITE", "sip:alice@example.com", "sip:bob@example.com", "call-1"⟩
    ⟨"z9hG4bK-invite", fun _ _ => none⟩ (fun _ _ => rfl)

/-- Witness: C2 applied to a CANCEL whose two transmissions succeed. -/
theorem handleCancel_two_responses_witness :
    attempts (handleCancel ⟨"CANCEL", "sip:alice@example.com", "sip:bob@example.com", "call-1"⟩
        ⟨"z9hG4bK-cancel", fun _ _ => none⟩) =
      [("z9hG4bK-cancel",
        { request := ⟨"CANCEL", "sip:alice@example.com", "sip:bob@example.com", "call-1"⟩,
          statusCode := 200, reason := "OK", headers := [], body := none }, none),
       ("z9hG4bK-cancel",
        { request := ⟨"CANCEL", "sip:alice@example.com", "sip:bob@example.com", "call-1"⟩,
          statusCode := 487, reason := "Request Terminated", headers := [], body := none },
        none)] ∧
    ∀ r ∈ responses (handleCancel
        ⟨"CANCEL", "sip:alice@example.com", "sip:bob@example.com", "call-1"⟩
        ⟨"z9hG4bK-cancel", fun _ _ => none⟩), r.body = none :=
  handleCancel_two_responses ⟨"CANCEL", "sip:alice@example.com", "sip:bob@example.com", "call-1"⟩
    ⟨"z9hG4bK-cancel", fun _ _ => none⟩ (fun _ _ => rfl)

/-- After a failed transmission `handleInvite` transmits nothing more and starts no
call-duration task. -/
theorem handleInvite_quietAfterFailure (env : Env) (req : Request) (tx : ServerTransaction) :
    Spec.quietAfterFailure (handleInvite env req tx) = true := by
  rcases h0 : tx.Respond 0 (NewResponseFromRequest req 100 "Trying" none) with _ | e0 <;>
    rcases h1 : tx.Respond 1 (NewResponseFromRequest req 180 "Ringing" none) with _ | e1 <;>
    rcases h2 : tx.Respond 2 (inviteOK env req) with _ | e2 <;>
    simp [handleInvite, h0, h1, h2, Spec.quietAfterFailure, Event.isRespond, Event.isTask]

/-- After a failed transmission `handleBye` transmits nothing more and starts no task. -/
theorem handleBye_quietAfterFailure (req : Request) (tx : ServerTransaction) :
    Spec.quietAfterFailure (handleBye req tx) = true := by
  rcases h0 : tx.Respond 0 (NewResponseFromRequest req 200 "OK" none) with _ | e0 <;>
    simp [handleBye, h0, Spec.quietAfterFailure, Event.isRespond, Event.isTask]

/-- After a failed transmission `handleRegister` transmits nothing more and starts no
task. -/
theorem handleRegister_quietAfterFailure (req : Request) (tx : ServerTransaction) :
    Spec.quietAfterFailure (handleRegister req tx) = true := by
  rcases h0 : tx.Respond 0 (NewResponseFromRequest req 200 "OK" none) with _ | e0 <;>
    simp [handleRegister, h0, Spec.quietAfterFailure, Event.isRespond, Event.isTask]

/-- When its 200 OK was transmitted, `handleCancel` transmits nothing after a failed
487 and starts no task. -/
theorem handleCancel_after_failed_487 (req : Request) (tx : ServerTransaction)
    (h200 : tx.Respond 0 (NewResponseFromRequest req 200 "OK" none) = none) :
    Spec.quietAfterFailure (handleCancel req tx) = true := by
  rcases h1 : tx.Respond 1 (NewResponseFromRequest req 487 "Request Terminated" none)
    with _ | e1 <;>
    simp [handleCancel, h200, h1, Spec.quietAfterFailure, Event.isRespond, Event.isTask]

/-- C3 (the code at the failing input): a CANCEL whose 200 OK fails to be
transmitted.  `handleCancel` logs the failure and goes on to attempt the 487 on the
same transaction: a transmission after the failed one. -/
theorem handleCancel_transmits_after_failure :
    attempts (handleCancel ⟨"CANCEL", "sip:alice@example.com", "sip:bob@example.com", "call-1"⟩
        ⟨"z9hG4bK-cancel",
         fun k _ => if k = 0 then some "write udp: network is unreachable" else none⟩) =
      [("z9hG4bK-cancel",
        { request := ⟨"CANCEL", "sip:alice@example.com", "sip:bob@example.com", "call-1"⟩,
          statusCode := 200, reason := "OK", headers := [], body := none },
        some "write udp: network is unreachable"),
       ("z9hG4bK-cancel",
        { request := ⟨"CANCEL", "sip:alice@example.com", "sip:bob@example.com", "call-1"⟩,
          statusCode := 487, reason := "Request Terminated", headers := [], body := none },
        none)] ∧
    Spec.quietAfterFailure (handleCancel
        ⟨"CANCEL", "sip:alice@example.com", "sip:bob@example.com", "call-1"⟩
        ⟨"z9hG4bK-cancel",
         fun k _ => if k = 0 then some "write udp: network is unreachable" else none⟩) = false := by
  constructor <;> rfl

/-- Every response `handleCancel` transmits is built from the request it was called
with and goes out on the transaction it was called with. -/
theorem handleCancel_attempts_on_own_request (req : Request) (tx : ServerTransaction) :
    ∀ a ∈ attempts (handleCancel req tx), a.1 = tx.key ∧ a.2.1.request = req := by
  rcases h0 : tx.Respond 0 (NewResponseFromRequest req 200 "OK" none) with _ | e0 <;>
    rcases h1 : tx.Respond 1 (NewResponseFromRequest req 487 "Request Terminated" none)
      with _ | e1 <;>
    simp only [handleCancel, h0, h1] <;> simp [attempts, NewResponseFromRequest]

/-- C5 (the code at the failing input): a CANCEL for a pending INVITE.  The 487 that
`handleCancel` transmits is built from the CANCEL request (its `request` has the
method CANCEL, not INVITE) and is sent on the CANCEL's transaction, as the 200 OK is. -/
theorem handleCancel_487_answers_cancel :
    (attempts (handleCancel ⟨"CANCEL", "sip:alice@example.com", "sip:bob@example.com", "call-1"⟩
        ⟨"z9hG4bK-cancel", fun _ _ => none⟩)).map
        (fun a => (a.1, a.2.1.statusCode, a.2.1.request.method)) =
      [("z9hG4bK-cancel", 200, "CANCEL"), ("z9hG4bK-cancel", 487, "CANCEL")] := by
  rfl

/-- C8: media IP resolution.  `getPublicIP` returns the `PUBLIC_IP` value when it is
a non-empty string and `getLocalIP`'s result otherwise; `getLocalIP` returns the text
of the first interface address that is an IP network address, is not loopback and
is IPv4, and `127.0.0.1` when there is none or when listing the interfaces fails. -/
theorem getPublicIP_resolution (env : Env) :
    getPublicIP env = Spec.publicIP env.PUBLIC_IP env.interfaceAddrs ∧
    getPublicIP env = (if env.PUBLIC_IP = "" then getLocalIP env.interfaceAddrs
                       else env.PUBLIC_IP) ∧
    ∀ addrs, getLocalIP addrs = Spec.localIP addrs := by
  refine ⟨?_, ?_, getLocalIP_eq_spec⟩
  · unfold getPublicIP Spec.publicIP
    by_cases h : env.PUBLIC_IP = "" <;> simp [h, getLocalIP_eq_spec]
  · unfold getPublicIP
    by_cases h : env.PUBLIC_IP = "" <;> simp [h]

end Headless

namespace Main
open Sip

/-- After a failed transmission `handleInvite` transmits nothing more and starts no
audio playback. -/
theorem main_handleInvite_quietAfterFailure (addrs1 addrs2 : InterfaceAddrs) (req : Request)
    (tx : ServerTransaction) :
    Spec.quietAfterFailure (handleInvite addrs1 addrs2 req tx) = true := by
  rcases h0 : tx.Respond 0 (NewResponseFromRequest req 180 "Ringing" none) with _ | e0 <;>
    rcases h1 : tx.Respond 1 (inviteOK addrs1 addrs2 req) with _ | e1 <;>
    simp [handleInvite, h0, h1, Spec.quietAfterFailure, Event.isRespond, Event.isTask]

/-- After a failed transmission `handleBye` transmits nothing more and starts no task. -/
theorem main_handleBye_quietAfterFailure (req : Request) (tx : ServerTransaction) :
    Spec.quietAfterFailure (handleBye req tx) = true := by
  rcases h0 : tx.Respond 0 (NewResponseFromRequest req 200 "OK" none) with _ | e0 <;>
    simp [handleBye, h0, Spec.quietAfterFailure, Event.isRespond, Event.isTask]

/-- After a failed transmission `handleRegister` transmits nothing more and starts no
task. -/
theorem main_handleRegister_quietAfterFailure (req : Request) (tx : ServerTransaction) :
    Spec.quietAfterFailure (handleRegister req tx) = true := by
  rcases h0 : tx.Respond 0 (NewResponseFromRequest req 200 "OK" none) with _ | e0 <;>
    simp [handleRegister, h0, Spec.quietAfterFailure, Event.isRespond, Event.isTask]

/-- C4 (counterexample): an INVITE whose transmissions all succeed.  The audio-device
`handleInvite` issues 180 Ringing first and then 200 OK; it issues no 100 Trying. -/
theorem handleInvite_first_is_not_trying :
    (responses (handleInvite (.ok []) (.ok [])
        ⟨"INVITE", "sip:alice@example.com", "sip:bob@example.com", "call-1"⟩
        ⟨"z9hG4bK-invite", fun _ _ => none⟩)).map (fun r => (r.statusCode, r.reason)) =
      [(180, "Ringing"), (200, "OK")] := by
  rfl

/-- C4 (amended): in the audio-device variant, for every INVITE request the first
response `handleInvite` issues is 180 Ringing; the final 200 OK follows it, and only
when the 180 was transmitted; no response with status 100 is issued. -/
theorem handleInvite_ringing_first (addrs1 addrs2 : InterfaceAddrs) (req : Request)
    (tx : ServerTransaction) :
    responses (handleInvite addrs1 addrs2 req tx) =
      { request := req, statusCode := 180, reason := "Ringing", headers := [], body := none } ::
        (if tx.Respond 0 (NewResponseFromRequest req 180 "Ringing" none) = none
         then [inviteOK addrs1 addrs2 req] else []) ∧
    (inviteOK addrs1 addrs2 req).statusCode = 200 ∧
    ∀ r ∈ responses (handleInvite addrs1 addrs2 req tx), r.statusCode ≠ 100 := by
  rcases h0 : tx.Respond 0 (NewResponseFromRequest req 180 "Ringing" none) with _ | e0 <;>
    rcases h1 : tx.Respond 1 (inviteOK addrs1 addrs2 req) with _ | e1 <;>
    simp only [handleInvite, h0, h1] <;>
    simp [responses, NewResponseFromRequest, inviteOK, Response.AppendHeader, Response.SetBody]

end Main

namespace Sdp

theorem textLines_append_newline (l rest : List Char) (h : '\n' ∉ l) :
    textLines (l ++ '\n' :: rest) = l :: textLines rest := by
  induction l with
  | nil => simp [textLines]
  | cons c cs ih =>
    have hc : c ≠ '\n' := fun e => h (by simp [e])
    have hcs : '\n' ∉ cs := fun e => h (by simp [e])
    simp [textLines, hc, ih hcs]

/-- The lines of the headless SDP body, for a media IP without a line break. -/
theorem headless_generateSDP_lines (ip : String) (h : noLineBreak ip) :
    lines (Headless.generateSDP ip) =
      ["v=0", "o=- 0 0 IN IP4 " ++ ip, "s=SIP Call", "c=IN IP4 " ++ ip, "t=0 0",
       "m=audio 20000 RTP/AVP 0 8 101", "a=rtpmap:0 PCMU/8000", "a=rtpmap:8 PCMA/8000",
       "a=rtpmap:101 telephone-event/8000", "a=fmtp:101 0-16", "a=ptime:20", "a=sendrecv"] := by
  have e : (Headless.generateSDP ip).data =
      "v=0".data ++ '\n' :: ("o=- 0 0 IN IP4 ".data ++ (ip.data ++ '\n' :: ("s=SIP Call".data ++
        '\n' :: ("c=IN IP4 ".data ++ (ip.data ++ '\n' :: "t=0 0\nm=audio 20000 RTP/AVP 0 8 101\na=rtpmap:0 PCMU/8000\na=rtpmap:8 PCMA/8000\na=rtpmap:101 telephone-event/8000\na=fmtp:101 0-16\na=ptime:20\na=sendrecv\n".data))))) := by
    simp [Headless.generateSDP, String.data_append]
  have l1 : textLines "t=0 0\nm=audio 20000 RTP/AVP 0 8 101\na=rtpmap:0 PCMU/8000\na=rtpmap:8 PCMA/8000\na=rtpmap:101 telephone-event/8000\na=fmtp:101 0-16\na=ptime:20\na=sendrecv\n".data =
      ["t=0 0".data, "m=audio 20000 RTP/AVP 0 8 101".data, "a=rtpmap:0 PCMU/8000".data,
       "a=rtpmap:8 PCMA/8000".data, "a=rtpmap:101 telephone-event/8000".data,
       "a=fmtp:101 0-16".data, "a=ptime:20".data, "a=sendrecv".data] := by decide
  have l2 (rest : List Char) : textLines ("c=IN IP4 ".data ++ (ip.data ++ '\n' :: rest)) =
      ("c=IN IP4 ".data ++ ip.data) :: textLines rest := by
    rw [← List.append_assoc]
    exact textLines_append_newline _ _ (by simpa [noLineBreak] using h)
  have l3 (rest : List Char) : textLines ("o=- 0 0 IN IP4 ".data ++ (ip.data ++ '\n' :: rest)) =
      ("o=- 0 0 IN IP4 ".data ++ ip.data) :: textLines rest := by
    rw [← List.append_assoc]
    exact textLines_append_newline _ _ (by simpa [noLineBreak] using h)
  have l4 (rest : List Char) : textLines ("s=SIP Call".data ++ '\n' :: rest) =
      "s=SIP Call".data :: textLines rest := textLines_append_newline _ _ (by decide)
  have l5 (rest : List Char) : textLines ("v=0".data ++ '\n' :: rest) =
      "v=0".data :: textLines rest := textLines_append_newline _ _ (by decide)
  unfold lines
  rw [e, l5, l3, l4, l2, l1]
  rfl

/-- The lines of the audio-device SDP body, for a media IP without a line break. -/
theorem main_generateSDP_lines (ip : String) (h : noLineBreak ip) :
    lines (Main.generateSDP ip) =
      ["v=0", "o=- 0 0 IN IP4 " ++ ip, "s=SIP Call", "c=IN IP4 " ++ ip, "t=0 0",
       "m=audio 20000 RTP/AVP 0 8 101", "a=rtpmap:0 PCMU/8000", "a=rtpmap:8 PCMA/8000",
       "a=rtpmap:101 telephone-event/8000", "a=fmtp:101 0-16", "a=sendrecv"] := by
  have e : (Main.generateSDP ip).data =
      "v=0".data ++ '\n' :: ("o=- 0 0 IN IP4 ".data ++ (ip.data ++ '\n' :: ("s=SIP Call".data ++
        '\n' :: ("c=IN IP4 ".data ++ (ip.data ++ '\n' :: "t=0 0\nm=audio 20000 RTP/AVP 0 8 101\na=rtpmap:0 PCMU/8000\na=rtpmap:8 PCMA/8000\na=rtpmap:101 telephone-event/8000\na=fmtp:101 0-16\na=sendrecv\n".data))))) := by
    simp [Main.generateSDP, String.data_append]
  have l1 : textLines "t=0 0\nm=audio 20000 RTP/AVP 0 8 101\na=rtpmap:0 PCMU/8000\na=rtpmap:8 PCMA/8000\na=rtpmap:101 telephone-event/8000\na=fmtp:101 0-16\na=sendrecv\n".data =
      ["t=0 0".data, "m=audio 20000 RTP/AVP 0 8 101".data, "a=rtpmap:0 PCMU/8000".data,
       "a=rtpmap:8 PCMA/8000".data, "a=rtpmap:101 telephone-event/8000".data,
       "a=fmtp:101 0-16".data, "a=sendrecv".data] := by decide
  have l2 (rest : List Char) : textLines ("c=IN IP4 ".data ++ (ip.data ++ '\n' :: rest)) =
      ("c=IN IP4 ".data ++ ip.data) :: textLines rest := by
    rw [← List.append_assoc]
    exact textLines_append_newline _ _ (by simpa [noLineBreak] using h)
  have l3 (rest : List Char) : textLines ("o=- 0 0 IN IP4 ".data ++ (ip.data ++ '\n' :: rest)) =
      ("o=- 0 0 IN IP4 ".data ++ ip.data) :: textLines rest := by
    rw [← List.append_assoc]
    exact textLines_append_newline _ _ (by simpa [noLineBreak] using h)
  have l4 (rest : List Char) : textLines ("s=SIP Call".data ++ '\n' :: rest) =
      "s=SIP Call".data :: textLines rest := textLines_append_newline _ _ (by decide)
  have l5 (rest : List Char) : textLines ("v=0".data ++ '\n' :: rest) =
      "v=0".data :: textLines rest := textLines_append_newline _ _ (by decide)
  unfold lines
  rw [e, l5, l3, l4, l2, l1]
  rfl

/-- C6: for a media IP `ip` without a line break, in both variants `generateSDP(ip)`
has the line `c=IN IP4 ip`, and its lines that start with `a=rtpmap:` are exactly
three: payload type 0 (PCMU/8000), 8 (PCMA/8000) and 101 (telephone-event/8000), in
this order. -/
theorem generateSDP_connection_and_rtpmap (ip : String) (h : noLineBreak ip) :
    ∀ sdp ∈ [Headless.generateSDP ip, Main.generateSDP ip],
      ("c=IN IP4 " ++ ip) ∈ lines sdp ∧
      (lines sdp).filter (startsWith "a=rtpmap:") =
        ["a=rtpmap:0 PCMU/8000", "a=rtpmap:8 PCMA/8000", "a=rtpmap:101 telephone-event/8000"] := by
  intro sdp hs
  simp only [List.mem_cons, List.mem_singleton, List.not_mem_nil, or_false] at hs
  rcases hs with rfl | rfl
  · rw [headless_generateSDP_lines ip h]
    exact ⟨by simp, rfl⟩
  · rw [main_generateSDP_lines ip h]
    exact ⟨by simp, rfl⟩

/-- Witness: C6 at the media IP `203.0.113.5`. -/
theorem generateSDP_connection_and_rtpmap_witness :
    noLineBreak "203.0.113.5" ∧
    ∀ sdp ∈ [Headless.generateSDP "203.0.113.5", Main.generateSDP "203.0.113.5"],
      ("c=IN IP4 " ++ "203.0.113.5") ∈ lines sdp ∧
      (lines sdp).filter (startsWith "a=rtpmap:") =
        ["a=rtpmap:0 PCMU/8000", "a=rtpmap:8 PCMA/8000", "a=rtpmap:101 telephone-event/8000"] :=
  ⟨by unfold noLineBreak; decide,
   generateSDP_connection_and_rtpmap "203.0.113.5" (by unfold noLineBreak; decide)⟩

/-- C7: for a media IP `ip` without a line break, in both variants the lines of
`generateSDP(ip)` begin with `v=0` and then `o=- 0 0 IN IP4 ip`; exactly one line
starts with `m=`, and it is `m=audio 20000 RTP/AVP 0 8 101`; the line `c=IN IP4 ip`
comes before it; the last line is `a=sendrecv`. -/
theorem generateSDP_layout (ip : String) (h : noLineBreak ip) :
    ∀ sdp ∈ [Headless.generateSDP ip, Main.generateSDP ip],
      (lines sdp).take 2 = ["v=0", "o=- 0 0 IN IP4 " ++ ip] ∧
      (lines sdp).filter (startsWith "m=") = ["m=audio 20000 RTP/AVP 0 8 101"] ∧
      (∃ pre mid post, lines sdp =
        pre ++ ("c=IN IP4 " ++ ip) :: mid ++ "m=audio 20000 RTP/AVP 0 8 101" :: post) ∧
      (lines sdp).getLast? = some "a=sendrecv" := by
  intro sdp hs
  simp only [List.mem_cons, List.mem_singleton, List.not_mem_nil, or_false] at hs
  rcases hs with rfl | rfl
  · rw [headless_generateSDP_lines ip h]
    exact ⟨rfl, rfl, ⟨["v=0", "o=- 0 0 IN IP4 " ++ ip, "s=SIP Call"], ["t=0 0"], _, rfl⟩, rfl⟩
  · rw [main_generateSDP_lines ip h]
    exact ⟨rfl, rfl, ⟨["v=0", "o=- 0 0 IN IP4 " ++ ip, "s=SIP Call"], ["t=0 0"], _, rfl⟩, rfl⟩

/-- Witness: C7 at the media IP `203.0.113.5`. -/
theorem generateSDP_layout_witness :
    noLineBreak "203.0.113.5" ∧
    ∀ sdp ∈ [Headless.generateSDP "203.0.113.5", Main.generateSDP "203.0.113.5"],
      (lines sdp).take 2 = ["v=0", "o=- 0 0 IN IP4 " ++ "203.0.113.5"] ∧
      (lines sdp).filter (startsWith "m=") = ["m=audio 20000 RTP/AVP 0 8 101"] ∧
      (∃ pre mid post, lines sdp =
        pre ++ ("c=IN IP4 " ++ "203.0.113.5") :: mid ++
          "m=audio 20000 RTP/AVP 0 8 101" :: post) ∧
      (lines sdp).getLast? = some "a=sendrecv" :=
  ⟨by unfold noLineBreak; decide, generateSDP_layout "203.0.113.5" (by unfold noLineBreak; decide)⟩

end Sdp

namespace Main

theorem fillChannels_pair {α : Type} (s : α) (i : Nat) (out : List α) (w : List Nat)
    (h : i + 1 < out.length) :
    fillChannels s i 0 out w = some ((out.set i s).set (i + 1) s, w ++ [i, i + 1]) := by
  have h0 : i < out.length := by omega
  rw [fillChannels, if_pos (by decide), if_pos (by simpa using h0)]
  rw [fillChannels, if_pos (by decide), if_pos (by simpa using h)]
  rw [fillChannels, if_neg (by decide)]
  simp

theorem fillFrames_spec {φ α : Type} (tone : Tone φ α) (m : Nat) :
    ∀ (d k : Nat) (phase : φ) (out : List α) (w : List Nat),
      k + d = m → out.length = 2 * m →
      ∃ out1 phase1,
        fillFrames tone (2 * m) (2 * k) phase out w =
          some (out1, phase1, w ++ List.range' (2 * k) (2 * d)) ∧
        out1.length = 2 * m ∧ phase1 = tone.advance^[d] phase ∧
        (∀ p, p < 2 * k → out1[p]? = out[p]?) ∧
        (∀ j, j < d → out1[2 * (k + j)]? = some (tone.sample (tone.advance^[j] phase)) ∧
                      out1[2 * (k + j) + 1]? = some (tone.sample (tone.advance^[j] phase))) := by
  intro d
  induction d with
  | zero =>
    intro k phase out w hk hlen
    refine ⟨out, phase, ?_, hlen, rfl, fun _ _ => rfl, fun j hj => absurd hj (by omega)⟩
    rw [fillFrames, if_neg (by omega)]
    simp
  | succ d ih =>
    intro k phase out w hk hlen
    have hlt : 2 * k + 1 < out.length := by omega
    obtain ⟨out1, phase1, hrun, hlen1, hph, hkeep, hpairs⟩ :=
      ih (k + 1) (tone.advance phase) ((out.set (2 * k) (tone.sample phase)).set (2 * k + 1)
        (tone.sample phase)) (w ++ [2 * k, 2 * k + 1]) (by omega) (by simpa using hlen)
    refine ⟨out1, phase1, ?_, hlen1, ?_, ?_, ?_⟩
    · rw [fillFrames, if_pos (by omega)]
      simp only [fillChannels_pair _ _ _ _ hlt]
      have e : 2 * k + channels = 2 * (k + 1) := by simp [channels]; omega
      rw [e, hrun]
      simp [List.range', Nat.mul_succ, List.append_assoc]
    · rw [hph, Function.iterate_succ_apply]
    · intro p hp
      rw [hkeep p (by omega), List.getElem?_set_ne (by omega), List.getElem?_set_ne (by omega)]
    · intro j hj
      cases j with
      | zero =>
        have h1 := hkeep (2 * k) (by omega)
        have h2 := hkeep (2 * k + 1) (by omega)
        simp only [Nat.add_zero, Function.iterate_zero, id_eq]
        refine ⟨?_, ?_⟩
        · rw [h1, List.getElem?_set_ne (by omega), List.getElem?_set_self (by omega)]
        · rw [h2, List.getElem?_set_self (by simpa using hlt)]
      | succ j =>
        have h := hpairs j (by omega)
        have e : 2 * (k + (j + 1)) = 2 * (k + 1 + j) := by omega
        rw [e, Function.iterate_succ_apply]
        exact h

/-- One pass over a buffer of even length `2 * m`: no index is out of range, the
indices assigned are `0, 1, ..., 2 * m - 1` in this order, and frame `j` holds the
sample of the `j`-th phase in both channels. -/
theorem fillBuffer_even {φ α : Type} (tone : Tone φ α) (phase : φ) (out : List α) (m : Nat)
    (hlen : out.length = 2 * m) :
    ∃ out1,
      fillBuffer tone phase out = some (out1, tone.advance^[m] phase, List.range (2 * m)) ∧
      out1.length = 2 * m ∧
      ∀ j, j < m → out1[2 * j]? = some (tone.sample (tone.advance^[j] phase)) ∧
                   out1[2 * j + 1]? = some (tone.sample (tone.advance^[j] phase)) := by
  obtain ⟨out1, phase1, hrun, hlen1, hph, _, hpairs⟩ :=
    fillFrames_spec tone m m 0 phase out [] (by omega) hlen
  refine ⟨out1, ?_, hlen1, ?_⟩
  · rw [fillBuffer, hlen]
    simpa [hph, List.range_eq_range'] using hrun
  · intro j hj
    simpa using hpairs j hj

/-- C10: one pass of the frame-filling loop of `playAudio` over a buffer `out` of
length `512 * channels`: no assignment is out of range (the pass does not panic and
every index it assigns is below `len(out)`), every one of the 1024 positions is
assigned exactly once, and both channel samples of every frame `k < 512` are equal
(to the tone sample of that frame). -/
theorem fillBuffer_in_range_once_equal {φ α : Type} (tone : Tone φ α) (phase : φ)
    (out : List α) (hlen : out.length = 512 * channels) :
    ∃ out1 phase1 written,
      fillBuffer tone phase out = some (out1, phase1, written) ∧
      (∀ p ∈ written, p < out.length) ∧
      (∀ p, p < 1024 → written.count p = 1) ∧
      out1.length = 1024 ∧
      ∀ k, k < 512 → out1[2 * k]? = some (tone.sample (tone.advance^[k] phase)) ∧
                     out1[2 * k + 1]? = some (tone.sample (tone.advance^[k] phase)) := by
  have h2 : out.length = 2 * 512 := by simpa [channels] using hlen
  obtain ⟨out1, hrun, hlen1, hpairs⟩ := fillBuffer_even tone phase out 512 h2
  refine ⟨out1, _, _, hrun, ?_, ?_, hlen1, hpairs⟩
  · intro p hp
    rw [h2]
    exact List.mem_range.mp hp
  · intro p hp
    exact List.count_eq_one_of_mem (List.nodup_range _) (List.mem_range.mpr hp)

/-- Witness: C10 on the zero-filled buffer `make([]float32, 512*channels)`, for a
tone over integer phases and samples. -/
theorem fillBuffer_in_range_once_equal_witness :
    (List.replicate (512 * channels) (0 : Int)).length = 512 * channels ∧
    ∃ out1 phase1 written,
      fillBuffer (⟨0, 0, fun p => (p : Int) % 7, fun p => p + 1⟩ : Tone Nat Int) 0
        (List.replicate (512 * channels) (0 : Int)) = some (out1, phase1, written) ∧
      (∀ p ∈ written, p < (List.replicate (512 * channels) (0 : Int)).length) ∧
      (∀ p, p < 1024 → written.count p = 1) ∧
      out1.length = 1024 ∧
      ∀ k, k < 512 →
        out1[2 * k]? = some ((⟨0, 0, fun p => (p : Int) % 7, fun p => p + 1⟩ : Tone Nat Int).sample
          ((⟨0, 0, fun p => (p : Int) % 7, fun p => p + 1⟩ : Tone Nat Int).advance^[k] 0)) ∧
        out1[2 * k + 1]? = some ((⟨0, 0, fun p => (p : Int) % 7, fun p => p + 1⟩ : Tone Nat Int).sample
          ((⟨0, 0, fun p => (p : Int) % 7, fun p => p + 1⟩ : Tone Nat Int).advance^[k] 0)) :=
  ⟨List.length_replicate _ _,
   fillBuffer_in_range_once_equal _ 0 _ (List.length_replicate _ _)⟩

/-- The bounds check of the model is live: on a buffer of odd length the inner loop
assigns past the end, which is Go's index-out-of-range panic. -/
theorem fillBuffer_odd_length_panics :
    fillBuffer (⟨0, 0, fun p => (p : Int) % 7, fun p => p + 1⟩ : Tone Nat Int) 0 [0, 0, 0] = none := by
  simp [fillBuffer, fillFrames, fillChannels, channels]

theorem split_at_rejected {α : Type} (xs ys pre post : List (AudioEvent α)) (y z : AudioEvent α)
    (hxs : ∀ x ∈ xs, x.isRejectedWrite = false) (hys : ∀ x ∈ ys, x.isRejectedWrite = false)
    (hz : z.isRejectedWrite = true) (h : xs ++ y :: ys = pre ++ z :: post) :
    pre = xs ∧ z = y ∧ post = ys := by
  induction xs generalizing pre with
  | nil =>
    cases pre with
    | nil =>
      simp only [List.nil_append, List.cons.injEq] at h
      exact ⟨rfl, h.1.symm, h.2.symm⟩
    | cons a pre1 =>
      simp only [List.nil_append, List.cons_append, List.cons.injEq] at h
      have hm : z ∈ ys := by rw [h.2]; simp
      rw [hys z hm] at hz
      cases hz
  | cons x xs ih =>
    cases pre with
    | nil =>
      simp only [List.nil_append, List.cons_append, List.cons.injEq] at h
      rw [← h.1, hxs x (by simp)] at hz
      cases hz
    | cons a pre1 =>
      simp only [List.cons_append, List.cons.injEq] at h
      obtain ⟨h1, h2, h3⟩ := ih pre1 (fun e he => hxs e (by simp [he])) h.2
      exact ⟨by rw [h.1, h1], h2, h3⟩

theorem no_split_without_rejected {α : Type} (t pre post : List (AudioEvent α)) (z : AudioEvent α)
    (ht : ∀ x ∈ t, x.isRejectedWrite = false) (hz : z.isRejectedWrite = true)
    (h : t = pre ++ z :: post) : False := by
  have hm : z ∈ t := by rw [h]; simp
  rw [ht z hm] at hz
  cases hz

theorem accepted_not_rejected {α : Type} (bufs : List (List α)) :
    ∀ x ∈ bufs.map (fun b => AudioEvent.write b none), x.isRejectedWrite = false := by
  intro x hx
  obtain ⟨b, _, rfl⟩ := List.mem_map.mp hx
  rfl

theorem writes_append {α : Type} (s t : List (AudioEvent α)) :
    writes (s ++ t) = writes s ++ writes t := by
  induction s with
  | nil => rfl
  | cons e s ih => cases e <;> simp [writes, ih]

theorem writes_accepted {α : Type} (bufs : List (List α)) :
    writes (bufs.map (fun b => AudioEvent.write b none)) =
      bufs.map (fun b => (b, (none : Option String))) := by
  induction bufs with
  | nil => rfl
  | cons b bufs ih => simp [writes, ih]

/-- The shape of a run of the playback loop on a full buffer: accepted writes of full
buffers, then the cut, the end of the duration, or one rejected write. -/
theorem playLoop_shape {φ α : Type} (tone : Tone φ α) (env : AudioEnv α) :
    ∀ (fuel k : Nat) (phase : φ) (out : List α), out.length = 2 * 512 →
      ∃ bufs : List (List α), (∀ b ∈ bufs, b.length = 2 * 512) ∧
        (playLoop tone env fuel k phase out =
            (bufs.map (fun b => AudioEvent.write b none), .unfinished) ∨
         playLoop tone env fuel k phase out =
            (bufs.map (fun b => AudioEvent.write b none) ++ [.log "Audio playback completed"],
             .returned) ∨
         ∃ last err, last.length = 2 * 512 ∧
           playLoop tone env fuel k phase out =
             (bufs.map (fun b => AudioEvent.write b none) ++
                [.write last (some err), .log ("Failed to write audio: " ++ err)], .returned)) := by
  intro fuel
  induction fuel with
  | zero =>
    intro k phase out _
    exact ⟨[], by simp, Or.inl rfl⟩
  | succ fuel ih =>
    intro k phase out hlen
    obtain ⟨out1, hfill, hlen1, _⟩ := fillBuffer_even tone phase out 512 hlen
    rcases hrun : env.running k with _ | _
    · exact ⟨[], by simp, Or.inr (Or.inl (by
        simp only [playLoop, hrun, Bool.false_eq_true, if_false, List.map_nil, List.nil_append]))⟩
    · rcases hw : env.writeErr k out1 with _ | err
      · obtain ⟨bufs, hb, hshape⟩ := ih (k + 1) (tone.advance^[512] phase) out1 hlen1
        refine ⟨out1 :: bufs, ?_, ?_⟩
        · intro b hbm
          rcases List.mem_cons.mp hbm with rfl | hbm
          · exact hlen1
          · exact hb b hbm
        · rcases hshape with h | h | ⟨last, err, hl, h⟩
          · exact Or.inl (by
              simp only [playLoop, hrun, if_true, hfill, hw, h, List.map_cons])
          · exact Or.inr (Or.inl (by
              simp only [playLoop, hrun, if_true, hfill, hw, h, List.map_cons, List.cons_append]))
          · exact Or.inr (Or.inr ⟨last, err, hl, by
              simp only [playLoop, hrun, if_true, hfill, hw, h, List.map_cons, List.cons_append]⟩)
      · exact ⟨[], by simp, Or.inr (Or.inr ⟨out1, err, hlen1, by
          simp only [playLoop, hrun, if_true, hfill, hw, List.map_nil, List.nil_append]⟩)⟩

/-- C9: in the tone playback loop of `playAudio`, whatever the sink and the clock
do: when a write is rejected, what follows it is the failure log line and the
deferred stop, close and terminate, so no further write is performed (no retry) and
`playAudio` returns; every write before it was accepted and was of one full buffer
of 512 frames times 2 channels, as was the rejected one. -/
theorem playAudio_ceases_at_rejected_write {φ α : Type} (tone : Tone φ α) (env : AudioEnv α)
    (fuel : Nat) (pre post : List (AudioEvent α)) (buf : List α) (err : String)
    (h : (playAudio tone env fuel).1 = pre ++ .write buf (some err) :: post) :
    post = [.log ("Failed to write audio: " ++ err), .stop, .close, .terminate] ∧
    writes post = [] ∧
    (playAudio tone env fuel).2 = .returned ∧
    (∀ w ∈ writes pre, w.1.length = 512 * channels ∧ w.2 = none) ∧
    buf.length = 512 * channels := by
  have hz : (AudioEvent.write buf (some err)).isRejectedWrite = true := rfl
  unfold playAudio at h ⊢
  rcases hi : env.initErr with _ | e
  · rcases ho : env.openErr with _ | e
    · rcases hs : env.startErr with _ | e
      · simp only [hi, ho, hs] at h ⊢
        have hlen : (List.replicate (512 * channels) tone.zero).length = 2 * 512 := by
          rw [List.length_replicate]
          rfl
        obtain ⟨bufs, hb, hshape⟩ :=
          playLoop_shape tone env fuel 0 tone.phase0 _ hlen
        rcases hshape with hr | hr | ⟨last, err1, hl, hr⟩
        · rw [hr] at h
          simp only at h
          exact (no_split_without_rejected _ _ _ _ (by
            intro x hx
            rcases List.mem_append.mp hx with hx | hx
            · simp at hx
              rcases hx with rfl | rfl | rfl | rfl <;> rfl
            · exact accepted_not_rejected bufs x hx) hz h).elim
        · rw [hr] at h
          simp only at h
          exact (no_split_without_rejected _ _ _ _ (by
            intro x hx
            simp only [List.mem_append, List.mem_cons, List.mem_singleton, List.not_mem_nil,
              or_false] at hx
            rcases hx with (((rfl | rfl) | (rfl | rfl)) | (hx | rfl)) | (rfl | rfl | rfl)
            all_goals first | rfl | exact accepted_not_rejected bufs x hx) hz h).elim
        · rw [hr] at h ⊢
          simp only [List.append_assoc, List.cons_append, List.nil_append] at h
          obtain ⟨hpre, hev, hpost⟩ := split_at_rejected
            (AudioEvent.paInit none ::
              AudioEvent.openDefaultStream 0 channels sampleRate
                ((List.replicate (512 * channels) tone.zero).length / channels) none ::
              AudioEvent.start none :: AudioEvent.log "Playing test tone (440Hz)..." ::
              bufs.map (fun b => AudioEvent.write b none))
            [.log ("Failed to write audio: " ++ err1), .stop, .close, .terminate]
            pre post (.write last (some err1)) (.write buf (some err))
            (by
              intro x hx
              simp only [List.mem_cons] at hx
              rcases hx with rfl | rfl | rfl | rfl | hx
              all_goals first | rfl | exact accepted_not_rejected bufs x hx)
            (by
              intro x hx
              simp only [List.mem_cons, List.mem_singleton, List.not_mem_nil, or_false] at hx
              rcases hx with rfl | rfl | rfl | rfl <;> rfl)
            hz h
          simp only [AudioEvent.write.injEq, Option.some.injEq] at hev
          obtain ⟨hbuf, herr⟩ := hev
          subst hbuf herr hpost hpre
          refine ⟨rfl, rfl, rfl, ?_, ?_⟩
          · intro w hw
            have e : writes (AudioEvent.paInit none ::
                AudioEvent.openDefaultStream 0 channels sampleRate
                  ((List.replicate (512 * channels) tone.zero).length / channels) none ::
                AudioEvent.start none :: AudioEvent.log "Playing test tone (440Hz)..." ::
                bufs.map (fun b => AudioEvent.write b none)) =
                bufs.map (fun b => (b, (none : Option String))) := writes_accepted bufs
            rw [e] at hw
            obtain ⟨b, hbm, rfl⟩ := List.mem_map.mp hw
            exact ⟨hb b hbm, rfl⟩
          · exact hl
      · simp only [hi, ho, hs] at h
        exact (no_split_without_rejected _ _ _ _ (by simp [AudioEvent.isRejectedWrite]) hz h).elim
    · simp only [hi, ho] at h
      exact (no_split_without_rejected _ _ _ _ (by simp [AudioEvent.isRejectedWrite]) hz h).elim
  · simp only [hi] at h
    exact (no_split_without_rejected _ _ _ _ (by simp [AudioEvent.isRejectedWrite]) hz h).elim

/-- The playback loop on a full buffer returns once the clock check fails, given fuel
to get there. -/
theorem playLoop_returns_at_deadline {φ α : Type} (tone : Tone φ α) (env : AudioEnv α) :
    ∀ (n fuel k : Nat) (phase : φ) (out : List α), out.length = 2 * 512 → n < fuel →
      env.running (k + n) = false → (playLoop tone env fuel k phase out).2 = .returned := by
  intro n
  induction n with
  | zero =>
    intro fuel k phase out _ hf hstop
    obtain ⟨f, rfl⟩ : ∃ f, fuel = f + 1 := ⟨fuel - 1, by omega⟩
    simp only [Nat.add_zero] at hstop
    simp only [playLoop, hstop, Bool.false_eq_true, if_false]
  | succ n ih =>
    intro fuel k phase out hlen hf hstop
    obtain ⟨f, rfl⟩ : ∃ f, fuel = f + 1 := ⟨fuel - 1, by omega⟩
    obtain ⟨out1, hfill, hlen1, _⟩ := fillBuffer_even tone phase out 512 hlen
    have hstop1 : env.running (k + 1 + n) = false := by
      rw [← hstop]
      congr 1
      omega
    unfold playLoop
    rcases hrun : env.running k with _ | _
    · simp only [Bool.false_eq_true, if_false]
    · simp only [if_true, hfill]
      rcases hw : env.writeErr k out1 with _ | err
      · simp only [hw]
        exact ih f (k + 1) (tone.advance^[512] phase) out1 hlen1 (by omega) hstop1
      · simp only [hw]

/-- `playAudio` returns once the clock check fails, given fuel to get there. -/
theorem playAudio_returns_at_deadline {φ α : Type} (tone : Tone φ α) (env : AudioEnv α)
    (n fuel : Nat) (hf : n < fuel) (hstop : env.running n = false) :
    (playAudio tone env fuel).2 = .returned := by
  have hlen : (List.replicate (512 * channels) tone.zero).length = 2 * 512 := by
    rw [List.length_replicate]
    rfl
  have hloop := playLoop_returns_at_deadline tone env n fuel 0 tone.phase0
    (List.replicate (512 * channels) tone.zero) hlen hf (by simpa using hstop)
  unfold playAudio
  rcases hi : env.initErr with _ | e
  · rcases ho : env.openErr with _ | e
    · rcases hs : env.startErr with _ | e
      · simp only [hloop]
      · rfl
    · rfl
  · rfl

/-- The playback loop reaches a write the sink rejects: when the clock keeps the loop
running and the sink accepts the first `n` writes and rejects the next one, the loop
performs `n` accepted writes, then the rejected write, and returns. -/
theorem playLoop_reaches_rejection {φ α : Type} (tone : Tone φ α) (env : AudioEnv α)
    (err : String) :
    ∀ (n fuel k : Nat) (phase : φ) (out : List α), out.length = 2 * 512 → n < fuel →
      (∀ j, j < n → env.running (k + j) = true ∧ ∀ b, env.writeErr (k + j) b = none) →
      env.running (k + n) = true → (∀ b, env.writeErr (k + n) b = some err) →
      ∃ (bufs : List (List α)) (last : List α), bufs.length = n ∧
        playLoop tone env fuel k phase out =
          (bufs.map (fun b => AudioEvent.write b none) ++
            [.write last (some err), .log ("Failed to write audio: " ++ err)], .returned) := by
  intro n
  induction n with
  | zero =>
    intro fuel k phase out hlen hf _ hrun hrej
    obtain ⟨f, rfl⟩ : ∃ f, fuel = f + 1 := ⟨fuel - 1, by omega⟩
    obtain ⟨out1, hfill, _, _⟩ := fillBuffer_even tone phase out 512 hlen
    simp only [Nat.add_zero] at hrun hrej
    exact ⟨[], out1, rfl, by
      simp only [playLoop, hrun, if_true, hfill, hrej out1, List.map_nil, List.nil_append]⟩
  | succ n ih =>
    intro fuel k phase out hlen hf hok hrun hrej
    obtain ⟨f, rfl⟩ : ∃ f, fuel = f + 1 := ⟨fuel - 1, by omega⟩
    obtain ⟨out1, hfill, hlen1, _⟩ := fillBuffer_even tone phase out 512 hlen
    have h0 := hok 0 (by omega)
    simp only [Nat.add_zero] at h0
    have e : ∀ j, k + 1 + j = k + (j + 1) := fun j => by omega
    obtain ⟨bufs, last, hb, hr⟩ := ih f (k + 1) (tone.advance^[512] phase) out1 hlen1 (by omega)
      (fun j hj => by rw [e]; exact hok (j + 1) (by omega))
      (by rw [e]; exact hrun) (fun b => by rw [e]; exact hrej b)
    exact ⟨out1 :: bufs, last, by simp [hb], by
      simp only [playLoop, h0.1, if_true, hfill, h0.2 out1, hr, List.map_cons, List.cons_append]⟩

/-- `playAudio` reaches a write the sink rejects (see `playLoop_reaches_rejection`). -/
theorem playAudio_reaches_rejection {φ α : Type} (tone : Tone φ α) (env : AudioEnv α)
    (err : String) (n fuel : Nat) (hi : env.initErr = none) (ho : env.openErr = none)
    (hs : env.startErr = none) (hf : n < fuel)
    (hok : ∀ j, j < n → env.running j = true ∧ ∀ b, env.writeErr j b = none)
    (hrun : env.running n = true) (hrej : ∀ b, env.writeErr n b = some err) :
    ∃ (pre : List (AudioEvent α)) (buf : List α), (writes pre).length = n ∧
      (playAudio tone env fuel).1 =
        pre ++ .write buf (some err) ::
          [.log ("Failed to write audio: " ++ err), .stop, .close, .terminate] := by
  have hlen : (List.replicate (512 * channels) tone.zero).length = 2 * 512 := by
    rw [List.length_replicate]
    rfl
  obtain ⟨bufs, last, hb, hr⟩ := playLoop_reaches_rejection tone env err n fuel 0 tone.phase0
    _ hlen hf (fun j hj => by simpa using hok j hj) (by simpa using hrun)
    (fun b => by simpa using hrej b)
  refine ⟨AudioEvent.paInit none ::
      AudioEvent.openDefaultStream 0 channels sampleRate
        ((List.replicate (512 * channels) tone.zero).length / channels) none ::
      AudioEvent.start none :: AudioEvent.log "Playing test tone (440Hz)..." ::
      bufs.map (fun b => AudioEvent.write b none), last, ?_, ?_⟩
  · have e : writes (AudioEvent.paInit none ::
        AudioEvent.openDefaultStream 0 channels sampleRate
          ((List.replicate (512 * channels) tone.zero).length / channels) none ::
        AudioEvent.start none :: AudioEvent.log "Playing test tone (440Hz)..." ::
        bufs.map (fun b => AudioEvent.write b none)) =
        bufs.map (fun b => (b, (none : Option String))) := writes_accepted bufs
    rw [e, List.length_map, hb]
  · unfold playAudio
    simp only [hi, ho, hs, hr, List.append_assoc, List.cons_append, List.nil_append]

/-- Witness: C9 on a run whose sink accepts two writes and rejects the third. -/
theorem playAudio_ceases_at_rejected_write_witness :
    ∃ (pre : List (AudioEvent Int)) (buf : List Int),
      (playAudio (⟨0, 0, fun p => (p : Int) % 7, fun p => p + 1⟩ : Tone Nat Int)
        ⟨none, none, none, fun _ => true,
          fun k _ => if k = 2 then some "Output underflowed" else none⟩ 5).1 =
        pre ++ .write buf (some "Output underflowed") ::
          [.log ("Failed to write audio: " ++ "Output underflowed"), .stop, .close,
           .terminate] ∧
      (writes pre).length = 2 ∧
      writes ([.log ("Failed to write audio: " ++ "Output underflowed"), .stop, .close,
           .terminate] : List (AudioEvent Int)) = [] ∧
      (playAudio (⟨0, 0, fun p => (p : Int) % 7, fun p => p + 1⟩ : Tone Nat Int)
        ⟨none, none, none, fun _ => true,
          fun k _ => if k = 2 then some "Output underflowed" else none⟩ 5).2 = .returned ∧
      (∀ w ∈ writes pre, w.1.length = 512 * channels ∧ w.2 = none) ∧
      buf.length = 512 * channels := by
  obtain ⟨pre, buf, hn, h⟩ := playAudio_reaches_rejection
    (⟨0, 0, fun p => (p : Int) % 7, fun p => p + 1⟩ : Tone Nat Int)
    ⟨none, none, none, fun _ => true,
      fun k _ => if k = 2 then some "Output underflowed" else none⟩
    "Output underflowed" 2 5 rfl rfl rfl (by decide)
    (fun j hj => ⟨rfl, fun _ => if_neg (by omega)⟩) rfl (fun _ => rfl)
  have hc := playAudio_ceases_at_rejected_write _ _ 5 pre _ buf "Output underflowed" h
  exact ⟨pre, buf, h, hn, hc.2.1, hc.2.2.1, hc.2.2.2.1, hc.2.2.2.2⟩


/-- The frame loop never indexes out of range inside `playAudio`: no run of
`playAudio` ends in a panic. -/
theorem playAudio_never_panics {φ α : Type} (tone : Tone φ α) (env : AudioEnv α) (fuel : Nat) :
    (playAudio tone env fuel).2 ≠ .panicked := by
  have hlen : (List.replicate (512 * channels) tone.zero).length = 2 * 512 := by
    rw [List.length_replicate]
    rfl
  unfold playAudio
  rcases hi : env.initErr with _ | e
  · rcases ho : env.openErr with _ | e
    · rcases hs : env.startErr with _ | e
      · obtain ⟨bufs, _, hshape⟩ := playLoop_shape tone env fuel 0 tone.phase0 _ hlen
        rcases hshape with hr | hr | ⟨last, err1, _, hr⟩ <;> simp only [hr] <;> simp
      · simp
    · simp
  · simp

end Main
